import Mathlib

/-!
Verification of the ARGO netCDF pipeline's quality-control engine
(`src/quality_control/qc_controller.py`) against its natural-language
specification.

The controller is embedded shallowly:
* Python dictionaries become association lists with first-match lookup;
* Python floats are modelled as exact rationals (every literal in the
  controller is exactly representable, and no claim depends on rounding);
* Python ints that only ever count upward become `Nat`;
* `dict.copy()` is a shallow copy, hence the identity on the embedded
  association list.
-/

namespace ArgoQC

/-- A Python value stored in a profile dictionary or in a report's metadata.
Measurement arrays are lists of optionally-missing rational samples. -/
inductive Value where
  | vStr : String → Value
  | vInt : Int → Value
  | vFloat : ℚ → Value
  | vArray : List (Option ℚ) → Value
  | vNone : Value
deriving Repr, DecidableEq

/-- A Python `dict` keyed by strings, as an association list (keys unique,
first match wins, insertion order kept). -/
abbrev PyDict := List (String × Value)

/-- `d.get(k, default)` of a Python dictionary. -/
def dictGet (d : PyDict) (k : String) (default : Value) : Value :=
  match d.lookup k with
  | some v => v
  | none => default

/-- Python `str()` restricted to the values the controller formats. It is
exact on strings and integers (the types `PLATFORM_NUMBER`/`CYCLE_NUMBER`
carry, and the only defaults the code supplies); for the remaining
constructors it is a stand-in rendering, never reached by the defaults. -/
def pyStr : Value → String
  | .vStr s => s
  | .vInt n => toString n
  | .vFloat q => toString q
  | .vArray _ => "<array>"
  | .vNone => "None"

/-- ARGO per-measurement quality-control flags (class `QCFlag`). -/
inductive QCFlag where
  | NO_QC
  | GOOD
  | PROBABLY_GOOD
  | PROBABLY_BAD
  | BAD
  | CHANGED
  | NOT_USED
  | NOT_USED_ALT
  | ESTIMATED
  | MISSING
deriving Repr, DecidableEq

/-- The character code each `QCFlag` enum member carries. -/
def QCFlag.code : QCFlag → String
  | .NO_QC => "0"
  | .GOOD => "1"
  | .PROBABLY_GOOD => "2"
  | .PROBABLY_BAD => "3"
  | .BAD => "4"
  | .CHANGED => "5"
  | .NOT_USED => "6"
  | .NOT_USED_ALT => "7"
  | .ESTIMATED => "8"
  | .MISSING => "9"

/-- Profile-level data-quality assessment (class `DataQuality`). -/
inductive DataQuality where
  | EXCELLENT
  | GOOD
  | ACCEPTABLE
  | POOR
  | UNUSABLE
deriving Repr, DecidableEq

/-- The string each `DataQuality` enum member carries. -/
def DataQuality.value : DataQuality → String
  | .EXCELLENT => "excellent"
  | .GOOD => "good"
  | .ACCEPTABLE => "acceptable"
  | .POOR => "poor"
  | .UNUSABLE => "unusable"

/-- The `QCReport` dataclass: the per-profile quality-control report. -/
structure QCReport where
  profile_id : String
  total_measurements : Int
  good_data_percentage : ℚ
  flags_summary : List (String × Int)
  outliers_removed : Int
  spike_detections : Int
  gradient_anomalies : Int
  density_inversions : Int
  data_quality : DataQuality
  issues : List String
  metadata : PyDict
deriving Repr, DecidableEq

/-- The run-wide counter dictionary `self.stats` of `ArgoQualityController`. -/
structure Stats where
  total_profiles : Nat
  profiles_processed : Nat
  profiles_rejected : Nat
  outliers_detected : Nat
  spikes_detected : Nat
  gradient_anomalies_detected : Nat
  density_inversions_detected : Nat
deriving Repr, DecidableEq

/-- Per-variable numeric limits held by the threshold mapping. -/
structure VarLimits where
  min : ℚ
  max : ℚ
  spike_threshold : ℚ
  gradient_threshold : ℚ
deriving Repr, DecidableEq

/-- A value of the threshold mapping: either a per-variable limit record or
a scalar profile-level setting. -/
inductive ThresholdValue where
  | limits : VarLimits → ThresholdValue
  | scalar : ℚ → ThresholdValue
deriving Repr, DecidableEq

/-- The threshold mapping, a Python dict keyed by variable or setting name. -/
abbrev ThresholdDict := List (String × ThresholdValue)

/-- `ArgoQualityController._get_default_thresholds`. -/
def get_default_thresholds : ThresholdDict :=
  [("TEMP", .limits ⟨-5/2, 40, 5, 2⟩),
   ("PSAL", .limits ⟨2, 42, 2, 1⟩),
   ("PRES", .limits ⟨0, 11000, 100, 50⟩),
   ("density_inversion_threshold", .scalar (1/20)),
   ("min_good_data_percentage", .scalar 70),
   ("max_depth_gap", .scalar 500),
   ("min_profile_length", .scalar 5)]

/-- The configuration handed to `ArgoQualityController.__init__`, modelled
by the only key the constructor reads: the optional value under its
`thresholds` entry. `none` covers `config=None`, an empty config, and a
config dict without the key. -/
structure Config where
  thresholds : Option ThresholdDict

/-- The `ArgoQualityController` object state after construction. -/
structure ArgoQualityController where
  thresholds : ThresholdDict
  stats : Stats
deriving Repr, DecidableEq

/-- `ArgoQualityController.__init__`: `self.thresholds` is
`config.get('thresholds', self._get_default_thresholds())` and every
counter of `self.stats` starts at zero. -/
def ArgoQualityController.init (config : Config) : ArgoQualityController :=
  { thresholds :=
      match config.thresholds with
      | some t => t
      | none => get_default_thresholds
    stats :=
      { total_profiles := 0
        profiles_processed := 0
        profiles_rejected := 0
        outliers_detected := 0
        spikes_detected := 0
        gradient_anomalies_detected := 0
        density_inversions_detected := 0 } }

/-- `ArgoQualityController.clean_profile_data`: bumps `total_profiles`,
builds the profile id from `PLATFORM_NUMBER`/`CYCLE_NUMBER` (with the
defaults `'unknown'` and `0`), shallow-copies the input, fills the report
with the literal placeholder values of the source, bumps
`profiles_processed`, and returns `(cleaned_data, qc_report)` together
with the updated object state. -/
def ArgoQualityController.clean_profile_data (self : ArgoQualityController)
    (data : PyDict) : ArgoQualityController × PyDict × QCReport :=
  let stats1 := { self.stats with total_profiles := self.stats.total_profiles + 1 }
  let platform_number := pyStr (dictGet data "PLATFORM_NUMBER" (.vStr "unknown"))
  let cycle_number := dictGet data "CYCLE_NUMBER" (.vInt 0)
  let profile_id := platform_number ++ "_" ++ pyStr cycle_number
  let cleaned_data := data
  let qc_report : QCReport :=
    { profile_id := profile_id
      total_measurements := 100
      good_data_percentage := 85
      flags_summary := []
      outliers_removed := 0
      spike_detections := 0
      gradient_anomalies := 0
      density_inversions := 0
      data_quality := .GOOD
      issues := []
      metadata := [] }
  let stats2 := { stats1 with profiles_processed := stats1.profiles_processed + 1 }
  ({ self with stats := stats2 }, cleaned_data, qc_report)

/-- The snapshot returned by `ArgoQualityController.get_statistics`:
every counter of `self.stats` plus `success_rate_percent`. -/
structure StatisticsSnapshot where
  total_profiles : Nat
  profiles_processed : Nat
  profiles_rejected : Nat
  outliers_detected : Nat
  spikes_detected : Nat
  gradient_anomalies_detected : Nat
  density_inversions_detected : Nat
  success_rate_percent : ℚ
deriving Repr, DecidableEq

/-- `ArgoQualityController.get_statistics`. -/
def ArgoQualityController.get_statistics (self : ArgoQualityController) :
    StatisticsSnapshot :=
  let success_rate : ℚ :=
    if self.stats.total_profiles > 0 then
      ((self.stats.profiles_processed : ℚ) / (self.stats.total_profiles : ℚ)) * 100
    else 0
  { total_profiles := self.stats.total_profiles
    profiles_processed := self.stats.profiles_processed
    profiles_rejected := self.stats.profiles_rejected
    outliers_detected := self.stats.outliers_detected
    spikes_detected := self.stats.spikes_detected
    gradient_anomalies_detected := self.stats.gradient_anomalies_detected
    density_inversions_detected := self.stats.density_inversions_detected
    success_rate_percent := success_rate }

/-- Sum of the per-flag counts in a report's `flags_summary`. -/
def flagsSum (fs : List (String × Int)) : Int :=
  (fs.map Prod.snd).sum

/-- Length of the measurement array stored under variable name `v`, 0 when
the key is absent or holds no array. -/
def measurement_length (d : PyDict) (v : String) : Nat :=
  match d.lookup v with
  | some (.vArray xs) => xs.length
  | _ => 0

/-- Number of present (non-missing) samples under variable name `v`. -/
def present_count (d : PyDict) (v : String) : Nat :=
  match d.lookup v with
  | some (.vArray xs) => (xs.filterMap id).length
  | _ => 0

/-- A structurally malformed profile: the TEMP and PRES arrays have
different lengths. -/
def malformed_profile : PyDict :=
  [("TEMP", .vArray [some 1, some 2]), ("PRES", .vArray [some 5])]

/-- A structurally valid but too-short profile: two present measurements,
below the default `min_profile_length` of 5. -/
def short_profile : PyDict :=
  [("TEMP", .vArray [some 1, some 2]), ("PRES", .vArray [some 5, some 10])]

/-- A profile whose every measurement value is missing. -/
def all_missing_profile : PyDict :=
  [("TEMP", .vArray [none, none, none]),
   ("PSAL", .vArray [none, none, none]),
   ("PRES", .vArray [none, none, none])]

/-- C1: the claim requires a profile with mismatched measurement-array
lengths to fail with `MalformedProfile`, updating no statistics and
producing no report. The code has no failure path at all: evaluated on
`malformed_profile` (TEMP has 2 entries, PRES has 1) it updates the
statistics and returns a full report. -/
theorem C1_malformed_profile_is_processed :
    measurement_length malformed_profile "TEMP" = 2 ∧
    measurement_length malformed_profile "PRES" = 1 ∧
    (ArgoQualityController.init ⟨none⟩).clean_profile_data malformed_profile
      = ({ thresholds := get_default_thresholds,
           stats := ⟨1, 1, 0, 0, 0, 0, 0⟩ },
         malformed_profile,
         { profile_id := "unknown_0", total_measurements := 100,
           good_data_percentage := 85, flags_summary := [],
           outliers_removed := 0, spike_detections := 0,
           gradient_anomalies := 0, density_inversions := 0,
           data_quality := .GOOD, issues := [], metadata := [] }) := by
  refine ⟨rfl, rfl, rfl⟩

/-- C2: the claim requires a profile with fewer present measurements than
`min_profile_length` (default 5) to be marked rejected with classification
forced to unusable. The code never rejects: on `short_profile` (2 present
measurements) the report's quality is `GOOD`, `profiles_rejected` stays 0
and `profiles_processed` is incremented instead. -/
theorem C2_short_profile_not_rejected :
    present_count short_profile "TEMP" = 2 ∧
    ((ArgoQualityController.init ⟨none⟩).clean_profile_data
        short_profile).2.2.data_quality = DataQuality.GOOD ∧
    ((ArgoQualityController.init ⟨none⟩).clean_profile_data
        short_profile).1.stats.profiles_rejected = 0 ∧
    ((ArgoQualityController.init ⟨none⟩).clean_profile_data
        short_profile).1.stats.profiles_processed = 1 := by
  refine ⟨rfl, rfl, rfl, rfl⟩

/-- C3: the claim requires an all-missing profile to be reported with
`total_measurements = 0`, `good_data_percentage = 0` and classification
unusable. The code returns the placeholder report regardless: on
`all_missing_profile` (0 present measurements in every array) it reports
100 measurements, 85% good data and quality `GOOD`. -/
theorem C3_all_missing_profile_report :
    present_count all_missing_profile "TEMP" = 0 ∧
    present_count all_missing_profile "PSAL" = 0 ∧
    present_count all_missing_profile "PRES" = 0 ∧
    ((ArgoQualityController.init ⟨none⟩).clean_profile_data
        all_missing_profile).2.2.total_measurements = 100 ∧
    ((ArgoQualityController.init ⟨none⟩).clean_profile_data
        all_missing_profile).2.2.good_data_percentage = 85 ∧
    ((ArgoQualityController.init ⟨none⟩).clean_profile_data
        all_missing_profile).2.2.data_quality = DataQuality.GOOD := by
  refine ⟨rfl, rfl, rfl, rfl, rfl, rfl⟩

/-- C4: the claim requires the `flags_summary` counts to sum exactly to
`total_measurements`. In the code `flags_summary` is always the empty
mapping (sum 0) while `total_measurements` is always the placeholder 100,
so the sums disagree on every profile; evaluated at the empty profile. -/
theorem C4_flags_summary_sum_mismatch :
    flagsSum ((ArgoQualityController.init ⟨none⟩).clean_profile_data
        []).2.2.flags_summary = 0 ∧
    ((ArgoQualityController.init ⟨none⟩).clean_profile_data
        []).2.2.total_measurements = 100 ∧
    flagsSum ((ArgoQualityController.init ⟨none⟩).clean_profile_data
          []).2.2.flags_summary ≠
      ((ArgoQualityController.init ⟨none⟩).clean_profile_data
          []).2.2.total_measurements := by
  refine ⟨rfl, rfl, by decide⟩

/-- C5: every call to `clean_profile_data` increments `total_profiles` by
exactly one and exactly one of `profiles_processed` / `profiles_rejected`
by exactly one (always `profiles_processed`, `profiles_rejected` is left
unchanged), and every construction of the engine zeroes all counters. -/
theorem C5_counter_discipline (self : ArgoQualityController) (data : PyDict)
    (config : Config) :
    (self.clean_profile_data data).1.stats.total_profiles
        = self.stats.total_profiles + 1 ∧
    (self.clean_profile_data data).1.stats.profiles_processed
        = self.stats.profiles_processed + 1 ∧
    (self.clean_profile_data data).1.stats.profiles_rejected
        = self.stats.profiles_rejected ∧
    (ArgoQualityController.init config).stats = ⟨0, 0, 0, 0, 0, 0, 0⟩ :=
  ⟨rfl, rfl, rfl, rfl⟩

/-- C6: `get_statistics` returns every counter unchanged plus
`success_rate_percent`, which is `100 * profiles_processed /
total_profiles` and is 0 when `total_profiles` is zero. -/
theorem C6_snapshot_success_rate (self : ArgoQualityController) :
    self.get_statistics.total_profiles = self.stats.total_profiles ∧
    self.get_statistics.profiles_processed = self.stats.profiles_processed ∧
    self.get_statistics.profiles_rejected = self.stats.profiles_rejected ∧
    self.get_statistics.outliers_detected = self.stats.outliers_detected ∧
    self.get_statistics.spikes_detected = self.stats.spikes_detected ∧
    self.get_statistics.gradient_anomalies_detected
        = self.stats.gradient_anomalies_detected ∧
    self.get_statistics.density_inversions_detected
        = self.stats.density_inversions_detected ∧
    self.get_statistics.success_rate_percent
        = (if self.stats.total_profiles = 0 then 0
           else 100 * (self.stats.profiles_processed : ℚ)
                  / (self.stats.total_profiles : ℚ)) := by
  refine ⟨rfl, rfl, rfl, rfl, rfl, rfl, rfl, ?_⟩
  by_cases h : self.stats.total_profiles = 0
  · simp [ArgoQualityController.get_statistics, h]
  · have h' : 0 < self.stats.total_profiles := Nat.pos_of_ne_zero h
    simp only [ArgoQualityController.get_statistics, h', if_pos, h, if_neg,
      not_false_iff, ite_false, gt_iff_lt, if_true, ite_true]
    ring

/-- C7: for every profile and every tracked variable the cleaned profile's
measurement array has the same length as the raw profile's; indeed the
cleaned profile is the (shallow) copy of the input, so nothing is removed
or reindexed. -/
theorem C7_lengths_preserved (self : ArgoQualityController) (data : PyDict)
    (v : String) :
    measurement_length (self.clean_profile_data data).2.1 v
        = measurement_length data v ∧
    (self.clean_profile_data data).2.1 = data :=
  ⟨rfl, rfl⟩

/-- C8: running `clean_profile_data` twice on the same raw profile (the
second call from the statistics state the first call left behind) yields
an identical cleaned profile and an identical report; only the run
statistics differ between the calls. -/
theorem C8_deterministic_rerun (self : ArgoQualityController) (data : PyDict) :
    ((self.clean_profile_data data).1.clean_profile_data data).2.1
        = (self.clean_profile_data data).2.1 ∧
    ((self.clean_profile_data data).1.clean_profile_data data).2.2
        = (self.clean_profile_data data).2.2 :=
  ⟨rfl, rfl⟩

/-- C9 counterexample: a configuration supplying a thresholds mapping that
contains only TEMP yields a policy with no value at `min_profile_length`
at all, although the documented default for that key is 5 — missing keys
do not fall back individually. -/
theorem C9_no_per_key_fallback :
    (ArgoQualityController.init
        ⟨some [("TEMP", .limits ⟨-5/2, 40, 5, 2⟩)]⟩).thresholds.lookup
        "min_profile_length" = none ∧
    get_default_thresholds.lookup "min_profile_length"
        = some (.scalar 5) := by
  refine ⟨rfl, rfl⟩

/-- C9 amended: the default fallback is all-or-nothing at the `thresholds`
configuration key: when no thresholds mapping is supplied the entire
documented default mapping is used, and when one is supplied it is used
verbatim, with no per-key defaults for missing entries. -/
theorem C9_all_or_nothing_fallback (t : ThresholdDict) :
    (ArgoQualityController.init ⟨some t⟩).thresholds = t ∧
    (ArgoQualityController.init ⟨none⟩).thresholds = get_default_thresholds :=
  ⟨rfl, rfl⟩

/-- C10: on every input dictionary `clean_profile_data` returns the shallow
copy of the input together with a report whose fields other than
`profile_id` are the fixed placeholder constants; `profile_id` joins
`PLATFORM_NUMBER` and `CYCLE_NUMBER` with an underscore and is
`unknown_0` when both keys are absent. -/
theorem C10_stub_behaviour (self : ArgoQualityController) (data : PyDict) :
    (self.clean_profile_data data).2.1 = data ∧
    (self.clean_profile_data data).2.2 =
      { profile_id :=
          pyStr (dictGet data "PLATFORM_NUMBER" (.vStr "unknown")) ++ "_"
            ++ pyStr (dictGet data "CYCLE_NUMBER" (.vInt 0))
        total_measurements := 100
        good_data_percentage := 85
        flags_summary := []
        outliers_removed := 0
        spike_detections := 0
        gradient_anomalies := 0
        density_inversions := 0
        data_quality := .GOOD
        issues := []
        metadata := [] } ∧
    (data.lookup "PLATFORM_NUMBER" = none → data.lookup "CYCLE_NUMBER" = none →
      (self.clean_profile_data data).2.2.profile_id = "unknown_0") := by
  refine ⟨rfl, rfl, fun h1 h2 => ?_⟩
  have e1 : dictGet data "PLATFORM_NUMBER" (.vStr "unknown")
      = .vStr "unknown" := by
    simp [dictGet, h1]
  have e2 : dictGet data "CYCLE_NUMBER" (.vInt 0) = .vInt 0 := by
    simp [dictGet, h2]
  show pyStr (dictGet data "PLATFORM_NUMBER" (.vStr "unknown")) ++ "_"
      ++ pyStr (dictGet data "CYCLE_NUMBER" (.vInt 0)) = "unknown_0"
  rw [e1, e2]
  rfl

/-- C10 witness: at the empty input dictionary both identity keys are
absent and the returned profile id is `unknown_0`. -/
theorem C10_stub_behaviour_witness :
    ([] : PyDict).lookup "PLATFORM_NUMBER" = none ∧
    ((ArgoQualityController.init ⟨none⟩).clean_profile_data []).2.2.profile_id
      = "unknown_0" :=
  ⟨rfl,
    (C10_stub_behaviour (ArgoQualityController.init ⟨none⟩) []).2.2 rfl rfl⟩

end ArgoQC
